import Mathlib

/-!
Verification of the gRPC connection pool and health-monitoring subsystem of
the motocabz-common repository (src/grpc/client.go and src/grpc/config.go).

The embedding is a shallow one: the two in-memory maps of the pool
(`conns : map[string]*grpc.ClientConn` and `connInfo : map[string]*ConnectionInfo`)
become association lists, a `*grpc.ClientConn` becomes a `Conn` record carrying the
identity of the channel, the transport state it reports at read time, and the
error its `Close()` call returns, and `time.Time` / `time.Duration` values become
natural numbers counted in nanoseconds (all quantities appearing in the claims
are tiny relative to the `int64` range of Go durations, so no wrap-around is
modelled).  External effects (the actual network dial, the ticker, goroutines)
are passed in explicitly as parameters or reported in result records: a call's
dial outcome is an input, and the sets of closed channels and of background
redials started are outputs.
-/

/-- Transport connectivity states, mirroring google.golang.org/grpc/connectivity. -/
inductive ConnState where
  | idle
  | connecting
  | ready
  | transientFailure
  | shutdown
deriving DecidableEq, Repr

/-- Errors produced by the client.  Wrapping with fmt.Errorf's %w verb is modelled
by a constructor holding the wrapped error as a field.  `nilError` stands for a
nil Go error appearing in a %w position. -/
inductive GErr where
  | nilError
  | transport (code : Nat)
  | configNotFound (service : String)
  | dialError (service target : String) (cause : GErr)
  | notReady (service target : String) (state : ConnState)
  | badState (service target : String) (state : ConnState)
  | connectFailed (service target : String) (attempt total : Nat) (cause : GErr)
  | wasShutdown (service target : String)
  | readyTimeout (service target : String) (state : ConnState)
  | dialFailure (service : String) (attempts : Nat) (cause : GErr)
deriving DecidableEq, Repr

/-- A `*grpc.ClientConn` as observed by the pool: an identity for the channel,
the connectivity state it reports when `GetState()` is called, and the error
(if any) that `Close()` on it returns. -/
structure Conn where
  id : Nat
  state : ConnState
  closeErr : Option GErr
deriving DecidableEq, Repr

/-- ConnectionInfo from src/grpc/client.go (lines 37-45): connection metadata.
The Go `Conn` pointer field is modelled by the channel identity `connId`. -/
structure ConnInfo where
  serviceName : String
  target : String
  state : ConnState
  createdAt : Nat
  lastUsed : Nat
  connId : Nat
deriving DecidableEq, Repr

/-- One second, in nanoseconds (Go's time.Second). -/
def second : Nat := 1000000000

/-- Default connection timeout (src/grpc/client.go line 20). -/
def defaultDialTimeout : Nat := 30 * second

/-- Default retry attempts (line 22). -/
def defaultMaxRetries : Nat := 3

/-- Default retry backoff (line 24). -/
def defaultRetryBackoff : Nat := 1 * second

/-- Default keepalive time (line 26). -/
def defaultKeepaliveTime : Nat := 60 * second

/-- Default keepalive timeout (line 28). -/
def defaultKeepaliveTimeout : Nat := 20 * second

/-- Default ready timeout (line 30). -/
def defaultReadyTimeout : Nat := 30 * second

/-- Default max message size, 4MB (line 32). -/
def defaultMaxMsgSize : Nat := 4 * 1024 * 1024

/-- Connection health check interval (line 34). -/
def healthCheckInterval : Nat := 30 * second

/-- Options from src/grpc/client.go (lines 47-58).  The Go field `Namespace` is
called `ns` here because `namespace` is a Lean keyword. -/
structure Options where
  ns : String
  dialTimeout : Nat
  maxRetries : Nat
  retryBackoff : Nat
  keepaliveTime : Nat
  keepaliveTimeout : Nat
  readyTimeout : Nat
  maxMsgSize : Nat
  enableMetrics : Bool
deriving DecidableEq, Repr

/-- GRPCClient from src/grpc/client.go (lines 60-78).  The two maps are
association lists; the Dapr client handle, wait group and context are external
resources, of which only the observable pieces are kept: `stopMonitorClosed`
records whether the `stopMonitor` channel has been closed (closing a closed Go
channel panics), and `cancelled` whether the context has been cancelled. -/
structure GRPCClient where
  conns : List (String × Conn)
  connInfo : List (String × ConnInfo)
  ns : String
  dialTimeout : Nat
  maxRetries : Nat
  retryBackoff : Nat
  keepaliveTime : Nat
  keepaliveTimeout : Nat
  readyTimeout : Nat
  maxMsgSize : Nat
  stopMonitorClosed : Bool
  cancelled : Bool
deriving DecidableEq, Repr

/-- ServiceConfig from src/grpc/config.go. -/
structure ServiceConfig where
  name : String
  port : String
deriving DecidableEq, Repr

/-- The static Service Directory from src/grpc/config.go (lines 8-25).  A Go map
literal; represented as an association list (only lookup is ever performed). -/
def Services : List (String × ServiceConfig) :=
  [("trip-service", ⟨"trip-service", "50003"⟩),
   ("identity-service", ⟨"identity-service", "50002"⟩),
   ("driver-service", ⟨"driver-service", "50004"⟩),
   ("rider-service", ⟨"rider-service", "50001"⟩)]

/-- Association-list lookup (Go map read `m[k]`). -/
def alookup {α : Type} : List (String × α) → String → Option α
  | [], _ => none
  | (k, v) :: rest, j => if k = j then some v else alookup rest j

/-- Association-list deletion (Go `delete(m, k)`). -/
def aerase {α : Type} : List (String × α) → String → List (String × α)
  | [], _ => []
  | (k, v) :: rest, j => if k = j then aerase rest j else (k, v) :: aerase rest j

/-- Association-list insert-or-replace (Go map write `m[k] = v`). -/
def aupsert {α : Type} : List (String × α) → String → α → List (String × α)
  | [], k, v => [(k, v)]
  | (k1, v1) :: rest, k, v =>
      if k1 = k then (k, v) :: rest else (k1, v1) :: aupsert rest k v

/-- In-place update of the value stored under a key, if present (Go's
`if x, exists := m[k]; exists { mutate *x }` pattern on a map of pointers). -/
def aupdate {α : Type} : List (String × α) → String → (α → α) → List (String × α)
  | [], _, _ => []
  | (k1, v1) :: rest, k, f =>
      if k1 = k then (k1, f v1) :: rest else (k1, v1) :: aupdate rest k f

/-- GetServiceConfig from src/grpc/config.go (lines 29-32). -/
def GetServiceConfig (serviceName : String) : Option ServiceConfig :=
  alookup Services serviceName

/-- Target address computation from src/grpc/client.go (lines 200-207). -/
def targetFor (ns : String) (config : ServiceConfig) : String :=
  if ns ≠ "" then
    config.name ++ "." ++ ns ++ ".svc.cluster.local:" ++ config.port
  else
    "localhost:" ++ config.port

/-- Environment input standing for the outcome of the one dial performed by
GetServiceConnectionWithContext: either grpc.DialContext returns an error, or it
returns a channel `cn` and `readyOk` tells whether `waitForReady` succeeded
(reached Ready or Idle before the ready timeout). -/
inductive DialEnv where
  | dialErr (code : Nat)
  | conn (cn : Conn) (readyOk : Bool)
deriving DecidableEq, Repr

/-- Result of a GetServiceConnectionWithContext call: the pool afterwards, the
returned value, whether grpc.DialContext was invoked, and the identities of the
channels on which Close() was called during the call. -/
structure GetConnResult where
  client : GRPCClient
  result : Except GErr Conn
  dialAttempted : Bool
  closed : List Nat

/-- Removal of a service's entry from both maps (the paired
`delete(c.conns, name); delete(c.connInfo, name)` statements). -/
def evict (c : GRPCClient) (serviceName : String) : GRPCClient :=
  { c with conns := aerase c.conns serviceName,
           connInfo := aerase c.connInfo serviceName }

/-- The dial-and-cache phase of GetServiceConnectionWithContext
(src/grpc/client.go lines 209-262): dial, tolerate a still-Connecting channel,
reject a channel in any other non-ready state, and on success cache the channel
and its metadata in both maps. -/
def dialPhase (c : GRPCClient) (now : Nat) (serviceName target : String)
    (denv : DialEnv) : GetConnResult :=
  match denv with
  | .dialErr code =>
      ⟨c, .error (.dialError serviceName target (.transport code)), true, []⟩
  | .conn cn readyOk =>
      if readyOk = false ∧ ¬ cn.state = .connecting then
        ⟨c, .error (.notReady serviceName target cn.state), true, [cn.id]⟩
      else if ¬ cn.state = .ready ∧ ¬ cn.state = .idle ∧ ¬ cn.state = .connecting then
        ⟨c, .error (.badState serviceName target cn.state), true, [cn.id]⟩
      else
        ⟨{ c with conns := aupsert c.conns serviceName cn,
                  connInfo := (aupsert c.connInfo serviceName
                    ⟨serviceName, target, cn.state, now, now, cn.id⟩) },
         .ok cn, true, []⟩

/-- The cache-miss path of GetServiceConnectionWithContext (lines 194-262):
directory lookup followed by the dial phase. -/
def getConnDial (c : GRPCClient) (now : Nat) (serviceName : String)
    (denv : DialEnv) : GetConnResult :=
  match GetServiceConfig serviceName with
  | none => ⟨c, .error (.configNotFound serviceName), false, []⟩
  | some config => dialPhase c now serviceName (targetFor c.ns config) denv

/-- GetServiceConnectionWithContext from src/grpc/client.go (lines 161-263).
A cache hit in state Ready, Idle or Connecting refreshes the metadata and
returns the cached channel; a hit in any other state evicts the entry, closes
its channel and falls through to a fresh dial; a miss goes straight to the
directory lookup and dial. -/
def getServiceConnectionWithContext (c : GRPCClient) (now : Nat)
    (serviceName : String) (denv : DialEnv) : GetConnResult :=
  match alookup c.conns serviceName with
  | some conn =>
      if conn.state = .ready ∨ conn.state = .idle ∨ conn.state = .connecting then
        ⟨{ c with connInfo := (aupdate c.connInfo serviceName (fun info =>
             { info with lastUsed := now, state := conn.state })) },
         .ok conn, false, []⟩
      else
        let d := getConnDial (evict c serviceName) now serviceName denv
        { d with closed := conn.id :: d.closed }
  | none => getConnDial c now serviceName denv

/-- Result of one pass (or one loop iteration) of the health monitor: the pool
afterwards, the identities of the channels closed, and the names for which a
background redial goroutine was spawned. -/
structure CheckResult where
  client : GRPCClient
  closed : List Nat
  redials : List String
deriving DecidableEq, Repr

/-- The loop body of checkAndReconnectConnections (src/grpc/client.go lines
521-578): the monitor's treatment of one pooled service name.  Shutdown is
evicted and closed immediately; TransientFailure is evicted, closed and handed
to a background redial only when more than two health-check intervals have
passed since the entry was last used; Ready and Idle get their bookkeeping
state refreshed; Connecting is left untouched. -/
def checkEntry (c : GRPCClient) (now : Nat) (serviceName : String) : CheckResult :=
  match alookup c.conns serviceName with
  | none => ⟨c, [], []⟩
  | some conn =>
      match conn.state with
      | .shutdown => ⟨evict c serviceName, [conn.id], []⟩
      | .transientFailure =>
          match alookup c.connInfo serviceName with
          | some info =>
              if now - info.lastUsed > 2 * healthCheckInterval then
                ⟨evict c serviceName, [conn.id], [serviceName]⟩
              else
                ⟨c, [], []⟩
          | none => ⟨c, [], []⟩
      | .ready =>
          ⟨{ c with connInfo := (aupdate c.connInfo serviceName (fun info =>
               { info with state := conn.state })) }, [], []⟩
      | .idle =>
          ⟨{ c with connInfo := (aupdate c.connInfo serviceName (fun info =>
               { info with state := conn.state })) }, [], []⟩
      | .connecting => ⟨c, [], []⟩

/-- Sequential processing of a snapshot of service names by the monitor loop. -/
def runChecks (now : Nat) : GRPCClient → List String → CheckResult
  | c, [] => ⟨c, [], []⟩
  | c, n :: rest =>
      let r := checkEntry c now n
      let r2 := runChecks now r.client rest
      ⟨r2.client, r.closed ++ r2.closed, r.redials ++ r2.redials⟩

/-- checkAndReconnectConnections from src/grpc/client.go (lines 513-579):
snapshot the pooled service names under the read lock, then process each. -/
def checkAndReconnectConnections (c : GRPCClient) (now : Nat) : CheckResult :=
  runChecks now c (c.conns.map (fun p => p.1))

/-- Result of a Close() call that did not panic. -/
structure CloseResult where
  client : GRPCClient
  closeError : Option GErr
  closedAttempts : List Nat
deriving DecidableEq, Repr

/-- The connection-closing loop of Close() (src/grpc/client.go lines 370-382):
close every channel, remembering the first error only (`if lastErr == nil`). -/
def closeLoop : Option GErr → List (String × Conn) → Option GErr × List Nat
  | lastErr, [] => (lastErr, [])
  | lastErr, (_, cn) :: rest =>
      let lastErr2 : Option GErr :=
        match lastErr, cn.closeErr with
        | none, some e => some e
        | le, _ => le
      let r := closeLoop lastErr2 rest
      (r.1, cn.id :: r.2)

/-- Close from src/grpc/client.go (lines 354-394): cancel the context, close the
stopMonitor channel (a Go panic — modelled as `none` — if it is already closed),
wait for the monitor, close every pooled channel keeping the first error, clear
both maps, and return that first error. -/
def closeClient (c : GRPCClient) : Option CloseResult :=
  if c.stopMonitorClosed then
    none
  else
    let r := closeLoop none c.conns
    let c2 := { c with cancelled := true, stopMonitorClosed := true, conns := [], connInfo := [] }
    some ⟨c2, r.1, r.2⟩

/-- NewGRPCClientWithOptions from src/grpc/client.go (lines 96-152).  A nil
options pointer becomes the zero Options value; afterwards every zero-valued
configuration field is replaced by its default.  The source performs the
replacements as a sequence of independent per-field if-statements; since each
reads and writes only its own field they are rendered as one simultaneous
record construction. -/
def newGRPCClientWithOptions (opts : Option Options) : GRPCClient :=
  let o : Options := match opts with
    | none => ⟨"", 0, 0, 0, 0, 0, 0, 0, false⟩
    | some oo => oo
  { conns := []
    connInfo := []
    ns := o.ns
    dialTimeout := if o.dialTimeout = 0 then defaultDialTimeout else o.dialTimeout
    maxRetries := if o.maxRetries = 0 then defaultMaxRetries else o.maxRetries
    retryBackoff := if o.retryBackoff = 0 then defaultRetryBackoff else o.retryBackoff
    keepaliveTime := if o.keepaliveTime = 0 then defaultKeepaliveTime else o.keepaliveTime
    keepaliveTimeout := if o.keepaliveTimeout = 0 then defaultKeepaliveTimeout else o.keepaliveTimeout
    readyTimeout := if o.readyTimeout = 0 then defaultReadyTimeout else o.readyTimeout
    maxMsgSize := if o.maxMsgSize = 0 then defaultMaxMsgSize else o.maxMsgSize
    stopMonitorClosed := false
    cancelled := false }

/-! ## The legacy retry loop

The second revision of src/grpc/client.go kept in the repository (lines
580-1013) dials inside GetServiceConnection with a retry loop (lines 700-794):
up to `maxRetries` attempts, a sleep of `retryBackoff * 2^(attempt-1)` before
every attempt except the first, and on exhaustion an error wrapping the last
per-attempt error. -/

/-- Per-attempt outcome supplied by the environment to the retry loop: the dial
itself fails, the channel is shut down while waiting for readiness, the ready
wait times out in a non-usable state, or the attempt succeeds (reaches Ready or
Idle). -/
inductive AttemptOutcome where
  | dialErr (code : Nat)
  | shutdownDuringWait
  | notReadyTimeout (state : ConnState)
  | ok
deriving DecidableEq, Repr

/-- The error recorded in `lastErr` by a failing attempt of the legacy retry
loop (lines 734-737, 758-762, 769-774); `none` for a successful attempt. -/
def attemptErrOf (service target : String) (total attempt : Nat) :
    AttemptOutcome → Option GErr
  | .dialErr code =>
      some (.connectFailed service target attempt total (.transport code))
  | .shutdownDuringWait => some (.wasShutdown service target)
  | .notReadyTimeout st => some (.readyTimeout service target st)
  | .ok => none

/-- Result of running the legacy retry loop: the returned value, the sleeps
performed (in order), and the number of dial attempts executed. -/
structure RetryResult where
  result : Except GErr Unit
  sleeps : List Nat
  attemptsMade : Nat
deriving Repr

/-- The backoff sleep of the legacy retry loop (line 706):
`c.retryBackoff * time.Duration(1 << uint(attempt-1))`. -/
def retrySleep (backoff attempt : Nat) : Nat := backoff * 2 ^ (attempt - 1)

/-- The body of the legacy retry loop (lines 704-794), by recursion on the
remaining number of attempts.  `fuel + attempt = maxRetries` at every call; the
loop sleeps `retrySleep` before every attempt except attempt 0, stops at the
first successful attempt, and when the attempts are exhausted returns the
`failed to establish connection after %d attempts: %w lastErr` error. -/
def dialRetryGo (service target : String) (maxRetries backoff : Nat)
    (outcomes : Nat → AttemptOutcome) :
    Nat → Nat → Option GErr → RetryResult
  | 0, attempt, lastErr =>
      ⟨.error (.dialFailure service maxRetries (lastErr.getD .nilError)), [], attempt⟩
  | fuel + 1, attempt, _lastErr =>
      let thisSleeps : List Nat :=
        if attempt > 0 then [retrySleep backoff attempt] else []
      match outcomes attempt with
      | .ok => ⟨.ok (), thisSleeps, attempt + 1⟩
      | o =>
          let r := dialRetryGo service target maxRetries backoff outcomes fuel
            (attempt + 1) (attemptErrOf service target maxRetries attempt o)
          ⟨r.result, thisSleeps ++ r.sleeps, r.attemptsMade⟩

/-- The legacy retry loop of GetServiceConnection (lines 700-794), entered at
attempt 0 with no recorded error. -/
def dialWithRetry (service target : String) (maxRetries backoff : Nat)
    (outcomes : Nat → AttemptOutcome) : RetryResult :=
  dialRetryGo service target maxRetries backoff outcomes maxRetries 0 none

/-- The Backoff Policy exactly as the specification words it: delay for retry
attempt `i` (0-based) is `min(b * 2^i, c)` for base `b` and cap `c`.  Stated for
comparison against the code's `retrySleep`, which has no cap. -/
def specBackoffDelay (b c i : Nat) : Nat := min (b * 2 ^ i) c

/-- Whether error `e` is, or transitively wraps (via a %w field), error `t`. -/
def errContains : GErr → GErr → Bool
  | e, t =>
      (e == t) ||
      match e with
      | .dialError _ _ cause => errContains cause t
      | .connectFailed _ _ _ _ cause => errContains cause t
      | .dialFailure _ _ cause => errContains cause t
      | _ => false

/-- The lockstep invariant of the pool: a channel is cached for a service name
exactly when metadata for that name is cached. -/
def PoolInv (c : GRPCClient) : Prop :=
  ∀ name, (alookup c.conns name).isSome = (alookup c.connInfo name).isSome

/-! ## Association-list lemmas -/

theorem alookup_aerase {α : Type} (m : List (String × α)) (k j : String) :
    alookup (aerase m k) j = if j = k then none else alookup m j := by
  induction m with
  | nil => simp [aerase, alookup]
  | cons p rest ih =>
    obtain ⟨k1, v1⟩ := p
    by_cases h1 : k1 = k
    · have e1 : aerase ((k1, v1) :: rest) k = aerase rest k := by
        simp [aerase, h1]
      rw [e1, ih]
      by_cases hj : j = k
      · simp [hj]
      · have hk1j : ¬ k1 = j := fun h => hj (h.symm.trans h1)
        simp only [alookup, if_neg hj, if_neg hk1j]
    · have e1 : aerase ((k1, v1) :: rest) k = (k1, v1) :: aerase rest k := by
        simp [aerase, h1]
      rw [e1]
      simp only [alookup]
      by_cases hj : k1 = j
      · have hjk : ¬ j = k := fun h => h1 (hj.trans h)
        simp only [if_pos hj, if_neg hjk]
      · simp only [if_neg hj, ih]

theorem alookup_aupsert {α : Type} (m : List (String × α)) (k j : String) (v : α) :
    alookup (aupsert m k v) j = if j = k then some v else alookup m j := by
  induction m with
  | nil =>
    simp only [aupsert, alookup]
    by_cases hj : k = j
    · simp [hj, if_pos hj.symm]
    · have hjk : ¬ j = k := fun h => hj h.symm
      simp [hj, hjk]
  | cons p rest ih =>
    obtain ⟨k1, v1⟩ := p
    by_cases h1 : k1 = k
    · have e1 : aupsert ((k1, v1) :: rest) k v = (k, v) :: rest := by
        simp [aupsert, h1]
      rw [e1]
      simp only [alookup]
      by_cases hj : j = k
      · simp [hj]
      · have hkj : ¬ k = j := fun h => hj h.symm
        have hk1j : ¬ k1 = j := fun h => hj (h.symm.trans h1)
        simp only [if_neg hkj, if_neg hj, if_neg hk1j]
    · have e1 : aupsert ((k1, v1) :: rest) k v = (k1, v1) :: aupsert rest k v := by
        simp [aupsert, h1]
      rw [e1]
      simp only [alookup]
      by_cases hj : k1 = j
      · have hjk : ¬ j = k := fun h => h1 (hj.trans h)
        simp only [if_pos hj, if_neg hjk]
      · simp only [if_neg hj, ih]

theorem alookup_aupdate {α : Type} (m : List (String × α)) (k j : String) (f : α → α) :
    alookup (aupdate m k f) j =
      if j = k then Option.map f (alookup m k) else alookup m j := by
  induction m with
  | nil => simp [aupdate, alookup]
  | cons p rest ih =>
    obtain ⟨k1, v1⟩ := p
    by_cases h1 : k1 = k
    · have e1 : aupdate ((k1, v1) :: rest) k f = (k1, f v1) :: rest := by
        simp [aupdate, h1]
      rw [e1]
      simp only [alookup]
      by_cases hj : j = k
      · have hk1j : k1 = j := h1.trans hj.symm
        simp [hk1j, h1, hj]
      · have hk1j : ¬ k1 = j := fun h => hj (h.symm.trans h1)
        simp only [if_neg hk1j, if_neg hj]
    · have e1 : aupdate ((k1, v1) :: rest) k f = (k1, v1) :: aupdate rest k f := by
        simp [aupdate, h1]
      rw [e1]
      simp only [alookup]
      by_cases hj : k1 = j
      · have hjk : ¬ j = k := fun h => h1 (hj.trans h)
        simp only [if_pos hj, if_neg hjk]
      · simp only [if_neg hj, ih, if_neg h1]

/-! ## Preservation of the lockstep invariant -/

theorem poolInv_evict {c : GRPCClient} (name : String) (h : PoolInv c) :
    PoolInv (evict c name) := by
  intro j
  simp only [evict, alookup_aerase]
  by_cases hj : j = name <;> simp [hj, h j]

theorem poolInv_aupdateInfo {c : GRPCClient} (s : String) (f : ConnInfo → ConnInfo)
    (h : PoolInv c) : PoolInv { c with connInfo := aupdate c.connInfo s f } := by
  intro j
  simp only [alookup_aupdate]
  by_cases hj : j = s
  · subst hj
    simp [h j]
  · simp [hj, h j]

theorem poolInv_dialPhase {c : GRPCClient} (now : Nat) (s t : String) (denv : DialEnv)
    (h : PoolInv c) : PoolInv (dialPhase c now s t denv).client := by
  cases denv with
  | dialErr code => simpa [dialPhase] using h
  | conn cn readyOk =>
    simp only [dialPhase]
    split_ifs with h1 h2
    · exact h
    · exact h
    · intro j
      simp only [alookup_aupsert]
      by_cases hj : j = s <;> simp [hj, h j]

theorem poolInv_getConnDial {c : GRPCClient} (now : Nat) (s : String) (denv : DialEnv)
    (h : PoolInv c) : PoolInv (getConnDial c now s denv).client := by
  rcases hcfg : GetServiceConfig s with _ | config <;>
    simp only [getConnDial, hcfg]
  · exact h
  · exact poolInv_dialPhase now s _ denv h

theorem poolInv_getConn {c : GRPCClient} (now : Nat) (s : String) (denv : DialEnv)
    (h : PoolInv c) : PoolInv (getServiceConnectionWithContext c now s denv).client := by
  unfold getServiceConnectionWithContext
  split
  · split_ifs with hstate
    · exact poolInv_aupdateInfo s _ h
    · exact poolInv_getConnDial now s denv (poolInv_evict s h)
  · exact poolInv_getConnDial now s denv h

theorem poolInv_checkEntry {c : GRPCClient} (now : Nat) (s : String)
    (h : PoolInv c) : PoolInv (checkEntry c now s).client := by
  unfold checkEntry
  split
  · exact h
  · split
    · exact poolInv_evict s h
    · split
      · split_ifs
        · exact poolInv_evict s h
        · exact h
      · exact h
    · exact poolInv_aupdateInfo s _ h
    · exact poolInv_aupdateInfo s _ h
    · exact h

theorem poolInv_runChecks (now : Nat) (names : List String) (c : GRPCClient)
    (h : PoolInv c) : PoolInv (runChecks now c names).client := by
  induction names generalizing c with
  | nil => simpa [runChecks] using h
  | cons n rest ih =>
    simp only [runChecks]
    exact ih _ (poolInv_checkEntry now n h)

theorem poolInv_monitorPass {c : GRPCClient} (now : Nat)
    (h : PoolInv c) : PoolInv (checkAndReconnectConnections c now).client :=
  poolInv_runChecks now _ c h

theorem poolInv_close {c : GRPCClient} {r : CloseResult} (h : closeClient c = some r) :
    PoolInv r.client := by
  simp only [closeClient] at h
  split_ifs at h
  cases h
  intro j
  simp [alookup]

/-! ## Behaviour of the legacy retry loop -/

/-- The last error recorded by a failing attempt, with a nil `lastErr` rendered
as `GErr.nilError` (the `%w` of a nil error). -/
def attemptFailErr (service target : String) (total attempt : Nat)
    (o : AttemptOutcome) : GErr :=
  (attemptErrOf service target total attempt o).getD .nilError

/-- The sleeps performed by the loop over attempts `attempt ..< attempt + fuel`:
one `retrySleep` before every attempt except attempt 0. -/
def expSleeps (b : Nat) : Nat → Nat → List Nat
  | _, 0 => []
  | attempt, fuel + 1 =>
      (if attempt > 0 then [retrySleep b attempt] else []) ++
        expSleeps b (attempt + 1) fuel

theorem expSleeps_shift (b : Nat) (fuel : Nat) :
    ∀ a, expSleeps b (a + 1) fuel = (List.range fuel).map (fun j => b * 2 ^ (a + j)) := by
  induction fuel with
  | zero => intro a; simp [expSleeps]
  | succ f ih =>
    intro a
    have h1 : a + 1 > 0 := Nat.succ_pos a
    simp only [expSleeps, if_pos h1, retrySleep, Nat.add_sub_cancel, ih (a + 1),
      List.range_succ_eq_map, List.map_cons, List.map_map, List.singleton_append]
    congr 1
    apply List.map_congr_left
    intro j hj
    have hcomp : a + 1 + j = a + (j + 1) := by omega
    simp [Function.comp_apply, hcomp]

theorem expSleeps_from_zero (b : Nat) (n : Nat) :
    expSleeps b 0 n = (List.range (n - 1)).map (fun k => b * 2 ^ k) := by
  cases n with
  | zero => simp [expSleeps]
  | succ m =>
    simp only [expSleeps, Nat.add_sub_cancel]
    rw [if_neg (by omega)]
    rw [show (0 : Nat) + 1 = 1 from rfl, expSleeps_shift b m 0]
    simp

theorem dialRetryGo_sleeps (service target : String) (n b : Nat)
    (outcomes : Nat → AttemptOutcome) :
    ∀ fuel attempt lastErr,
      attempt ≤ (dialRetryGo service target n b outcomes fuel attempt lastErr).attemptsMade ∧
      (dialRetryGo service target n b outcomes fuel attempt lastErr).attemptsMade ≤ attempt + fuel ∧
      (dialRetryGo service target n b outcomes fuel attempt lastErr).sleeps =
        expSleeps b attempt
          ((dialRetryGo service target n b outcomes fuel attempt lastErr).attemptsMade - attempt) := by
  intro fuel
  induction fuel with
  | zero =>
    intro attempt lastErr
    simp [dialRetryGo, expSleeps]
  | succ f ih =>
    intro attempt lastErr
    cases ho : outcomes attempt with
    | ok =>
      simp only [dialRetryGo, ho]
      refine ⟨Nat.le_succ attempt, by omega, ?_⟩
      have h1 : attempt + 1 - attempt = 1 := by omega
      simp [h1, expSleeps]
    | dialErr code =>
      simp only [dialRetryGo, ho]
      obtain ⟨h1, h2, h3⟩ :=
        ih (attempt + 1) (attemptErrOf service target n attempt (AttemptOutcome.dialErr code))
      refine ⟨by omega, by omega, ?_⟩
      rw [h3]
      have hk : (dialRetryGo service target n b outcomes f (attempt + 1)
            (attemptErrOf service target n attempt (AttemptOutcome.dialErr code))).attemptsMade
            - attempt
          = ((dialRetryGo service target n b outcomes f (attempt + 1)
            (attemptErrOf service target n attempt (AttemptOutcome.dialErr code))).attemptsMade
            - (attempt + 1)) + 1 := by omega
      rw [hk]
      simp [expSleeps]
    | shutdownDuringWait =>
      simp only [dialRetryGo, ho]
      obtain ⟨h1, h2, h3⟩ :=
        ih (attempt + 1) (attemptErrOf service target n attempt AttemptOutcome.shutdownDuringWait)
      refine ⟨by omega, by omega, ?_⟩
      rw [h3]
      have hk : (dialRetryGo service target n b outcomes f (attempt + 1)
            (attemptErrOf service target n attempt AttemptOutcome.shutdownDuringWait)).attemptsMade
            - attempt
          = ((dialRetryGo service target n b outcomes f (attempt + 1)
            (attemptErrOf service target n attempt AttemptOutcome.shutdownDuringWait)).attemptsMade
            - (attempt + 1)) + 1 := by omega
      rw [hk]
      simp [expSleeps]
    | notReadyTimeout st =>
      simp only [dialRetryGo, ho]
      obtain ⟨h1, h2, h3⟩ :=
        ih (attempt + 1) (attemptErrOf service target n attempt (AttemptOutcome.notReadyTimeout st))
      refine ⟨by omega, by omega, ?_⟩
      rw [h3]
      have hk : (dialRetryGo service target n b outcomes f (attempt + 1)
            (attemptErrOf service target n attempt (AttemptOutcome.notReadyTimeout st))).attemptsMade
            - attempt
          = ((dialRetryGo service target n b outcomes f (attempt + 1)
            (attemptErrOf service target n attempt (AttemptOutcome.notReadyTimeout st))).attemptsMade
            - (attempt + 1)) + 1 := by omega
      rw [hk]
      simp [expSleeps]

theorem dialRetryGo_fail_step (service target : String) (n b : Nat)
    (outcomes : Nat → AttemptOutcome) (f attempt : Nat) (lastErr : Option GErr)
    (hno : outcomes attempt ≠ AttemptOutcome.ok) :
    dialRetryGo service target n b outcomes (f + 1) attempt lastErr =
      ⟨(dialRetryGo service target n b outcomes f (attempt + 1)
          (attemptErrOf service target n attempt (outcomes attempt))).result,
       (if attempt > 0 then [retrySleep b attempt] else []) ++
         (dialRetryGo service target n b outcomes f (attempt + 1)
           (attemptErrOf service target n attempt (outcomes attempt))).sleeps,
       (dialRetryGo service target n b outcomes f (attempt + 1)
         (attemptErrOf service target n attempt (outcomes attempt))).attemptsMade⟩ := by
  cases ho : outcomes attempt with
  | ok => exact absurd ho hno
  | dialErr code => simp [dialRetryGo, ho]
  | shutdownDuringWait => simp [dialRetryGo, ho]
  | notReadyTimeout st => simp [dialRetryGo, ho]

theorem dialRetryGo_allFail (service target : String) (n b : Nat)
    (outcomes : Nat → AttemptOutcome) :
    ∀ fuel attempt lastErr, attempt + fuel = n →
      (∀ k, attempt ≤ k → k < n → outcomes k ≠ AttemptOutcome.ok) →
      dialRetryGo service target n b outcomes fuel attempt lastErr =
        ⟨.error (.dialFailure service n
            ((if fuel = 0 then lastErr
              else attemptErrOf service target n (n - 1) (outcomes (n - 1))).getD .nilError)),
         expSleeps b attempt fuel, n⟩ := by
  intro fuel
  induction fuel with
  | zero =>
    intro attempt lastErr hsum hfail
    have : attempt = n := by omega
    subst this
    simp [dialRetryGo, expSleeps]
  | succ f ih =>
    intro attempt lastErr hsum hfail
    have hlt : attempt < n := by omega
    have hne : outcomes attempt ≠ AttemptOutcome.ok := hfail attempt (le_refl _) hlt
    rw [dialRetryGo_fail_step service target n b outcomes f attempt lastErr hne]
    rw [ih (attempt + 1) (attemptErrOf service target n attempt (outcomes attempt))
      (by omega) (fun k hk1 hk2 => hfail k (by omega) hk2)]
    by_cases hf : f = 0
    · subst hf
      have ha : attempt = n - 1 := by omega
      subst ha
      simp [expSleeps]
    · rw [if_neg hf]
      have hfs : (f : Nat) + 1 ≠ 0 := by omega
      rw [if_neg hfs]
      simp only [expSleeps]

theorem dialWithRetry_allFail (service target : String) (n b : Nat)
    (outcomes : Nat → AttemptOutcome) (hn : 0 < n)
    (hfail : ∀ k, k < n → outcomes k ≠ AttemptOutcome.ok) :
    dialWithRetry service target n b outcomes =
      ⟨.error (.dialFailure service n
          (attemptFailErr service target n (n - 1) (outcomes (n - 1)))),
       (List.range (n - 1)).map (fun k => b * 2 ^ k), n⟩ := by
  unfold dialWithRetry
  rw [dialRetryGo_allFail service target n b outcomes n 0 none (by omega)
    (fun k _ hk2 => hfail k hk2)]
  rw [if_neg (show ¬ n = 0 by omega)]
  rw [expSleeps_from_zero]
  rfl

/-! ## Close-loop lemmas and concrete fixtures -/

theorem closeLoop_ids (le : Option GErr) (l : List (String × Conn)) :
    (closeLoop le l).2 = l.map (fun p => p.2.id) := by
  induction l generalizing le with
  | nil => simp [closeLoop]
  | cons p rest ih =>
    obtain ⟨s, cn⟩ := p
    simp [closeLoop, ih]

theorem closeLoop_some (e : GErr) (l : List (String × Conn)) :
    (closeLoop (some e) l).1 = some e := by
  induction l with
  | nil => rfl
  | cons p rest ih =>
    obtain ⟨s, cn⟩ := p
    simpa [closeLoop] using ih

theorem closeLoop_none_firstErr (l : List (String × Conn)) :
    (closeLoop none l).1 = (l.filterMap (fun p => p.2.closeErr)).head? := by
  induction l with
  | nil => rfl
  | cons p rest ih =>
    obtain ⟨s, cn⟩ := p
    cases hce : cn.closeErr with
    | none => simp [closeLoop, hce, ih, List.filterMap_cons]
    | some e => simp [closeLoop, hce, closeLoop_some, List.filterMap_cons]

theorem dialPhase_dialAttempted (c : GRPCClient) (now : Nat) (s t : String)
    (denv : DialEnv) : (dialPhase c now s t denv).dialAttempted = true := by
  cases denv with
  | dialErr code => rfl
  | conn cn readyOk =>
    simp only [dialPhase]
    split_ifs <;> rfl

theorem getConnDial_dialAttempted (c : GRPCClient) (now : Nat) (s : String)
    (denv : DialEnv) (config : ServiceConfig) (hcfg : GetServiceConfig s = some config) :
    (getConnDial c now s denv).dialAttempted = true := by
  simp [getConnDial, hcfg, dialPhase_dialAttempted]

/-- A healthy cached channel used in the concrete states below. -/
def sampleConn : Conn := ⟨1, ConnState.ready, none⟩

/-- Metadata matching `sampleConn`. -/
def sampleInfo : ConnInfo := ⟨"trip-service", "localhost:50003", ConnState.ready, 0, 0, 1⟩

/-- A pool holding one healthy entry for trip-service. -/
def sampleClient : GRPCClient :=
  ⟨[("trip-service", sampleConn)], [("trip-service", sampleInfo)], "",
   defaultDialTimeout, defaultMaxRetries, defaultRetryBackoff, defaultKeepaliveTime,
   defaultKeepaliveTimeout, defaultReadyTimeout, defaultMaxMsgSize, false, false⟩

/-- A cached channel stuck in TransientFailure. -/
def tfConn : Conn := ⟨5, ConnState.transientFailure, none⟩

/-- Metadata matching `tfConn`, last used at time 0. -/
def tfInfo : ConnInfo :=
  ⟨"trip-service", "localhost:50003", ConnState.transientFailure, 0, 0, 5⟩

/-- A pool whose only entry reports TransientFailure and was last used at time 0. -/
def tfClient : GRPCClient :=
  ⟨[("trip-service", tfConn)], [("trip-service", tfInfo)], "",
   defaultDialTimeout, defaultMaxRetries, defaultRetryBackoff, defaultKeepaliveTime,
   defaultKeepaliveTimeout, defaultReadyTimeout, defaultMaxMsgSize, false, false⟩

/-- The zero value of Options (every configuration field unset). -/
def zeroOptions : Options := ⟨"", 0, 0, 0, 0, 0, 0, 0, false⟩

/-- A pool with no cached connections. -/
def emptyClient : GRPCClient :=
  ⟨[], [], "", defaultDialTimeout, defaultMaxRetries, defaultRetryBackoff,
   defaultKeepaliveTime, defaultKeepaliveTimeout, defaultReadyTimeout,
   defaultMaxMsgSize, false, false⟩

/-- A pool with three entries whose channels fail to close in different ways. -/
def closeErrClient : GRPCClient :=
  ⟨[("trip-service", ⟨1, ConnState.ready, none⟩),
    ("driver-service", ⟨2, ConnState.idle, some (.transport 13)⟩),
    ("rider-service", ⟨3, ConnState.ready, some (.transport 99)⟩)],
   [], "", defaultDialTimeout, defaultMaxRetries, defaultRetryBackoff,
   defaultKeepaliveTime, defaultKeepaliveTimeout, defaultReadyTimeout,
   defaultMaxMsgSize, false, false⟩

/-! ## Claim theorems -/

/-- Claim C1, counterexample: the retry loop of the legacy GetServiceConnection
has no backoff cap.  With base delay 1 s, six retries sleep 1, 2, 4, 8, 16, 32
seconds, not the min(2^i s, 10 s) sequence 1, 2, 4, 8, 10, 10 claimed for a
10 s cap: the delays before retries 4 and 5 are 16 s and 32 s. -/
theorem backoff_cap_refuted :
    (dialWithRetry "trip-service" "localhost:50003" 7 second
        (fun _ => AttemptOutcome.dialErr 0)).sleeps
      = [1, 2, 4, 8, 16, 32].map (fun x => x * second) ∧
    (List.range 6).map (fun i => specBackoffDelay second (10 * second) i)
      = [1, 2, 4, 8, 10, 10].map (fun x => x * second) ∧
    ¬ ((dialWithRetry "trip-service" "localhost:50003" 7 second
        (fun _ => AttemptOutcome.dialErr 0)).sleeps
      = (List.range 6).map (fun i => specBackoffDelay second (10 * second) i)) := by
  refine ⟨by decide, by decide, by decide⟩

/-- Claim C1, amended: the backoff delay before retry attempt i (0-based) of the
legacy retry loop is b * 2^i for the configured base delay b, with no cap; in
particular for base 1 s the delay sequence for retries 0..5 is exactly
1, 2, 4, 8, 16, 32 seconds. -/
theorem backoff_uncapped (service target : String) (b n : Nat)
    (outcomes : Nat → AttemptOutcome) (hn : 0 < n)
    (hfail : ∀ k, k < n → outcomes k ≠ AttemptOutcome.ok) :
    (∀ i, retrySleep b (i + 1) = b * 2 ^ i) ∧
    (dialWithRetry service target n b outcomes).sleeps
      = (List.range (n - 1)).map (fun i => b * 2 ^ i) := by
  constructor
  · intro i
    simp [retrySleep]
  · rw [dialWithRetry_allFail service target n b outcomes hn hfail]

/-- Witness for `backoff_uncapped` at base 1 s and 7 attempts, all failing. -/
theorem backoff_uncapped_witness :
    (dialWithRetry "trip-service" "localhost:50003" 7 second
        (fun _ => AttemptOutcome.dialErr 0)).sleeps
      = (List.range 6).map (fun i => second * 2 ^ i) :=
  (backoff_uncapped "trip-service" "localhost:50003" second 7
    (fun _ => AttemptOutcome.dialErr 0) (by decide) (fun k _ => by simp)).2

/-- Claim C2: the legacy retry loop makes at most maxRetries dial attempts,
sleeps the computed backoff before every attempt except the first, and when
every attempt fails returns the dial-failure error recording maxRetries
attempts and wrapping the last per-attempt error; when the last attempt failed
in the dial itself, the returned error transitively wraps that transport
error. -/
theorem dial_retry_exhaustion (service target : String) (n b : Nat)
    (outcomes : Nat → AttemptOutcome) (hn : 0 < n)
    (hfail : ∀ k, k < n → outcomes k ≠ AttemptOutcome.ok) :
    (∀ outs : Nat → AttemptOutcome,
       (dialWithRetry service target n b outs).attemptsMade ≤ n ∧
       (dialWithRetry service target n b outs).sleeps
         = (List.range ((dialWithRetry service target n b outs).attemptsMade - 1)).map
             (fun k => b * 2 ^ k)) ∧
    (dialWithRetry service target n b outcomes).attemptsMade = n ∧
    (dialWithRetry service target n b outcomes).result
      = .error (.dialFailure service n
          (attemptFailErr service target n (n - 1) (outcomes (n - 1)))) ∧
    (∀ code, outcomes (n - 1) = AttemptOutcome.dialErr code →
       errContains
         (.dialFailure service n
           (attemptFailErr service target n (n - 1) (outcomes (n - 1))))
         (.transport code) = true) := by
  refine ⟨?_, ?_, ?_, ?_⟩
  · intro outs
    obtain ⟨h1, h2, h3⟩ := dialRetryGo_sleeps service target n b outs n 0 none
    refine ⟨by simpa using h2, ?_⟩
    rw [show (dialWithRetry service target n b outs) =
        dialRetryGo service target n b outs n 0 none from rfl, h3]
    rw [Nat.sub_zero, expSleeps_from_zero]
  · rw [dialWithRetry_allFail service target n b outcomes hn hfail]
  · rw [dialWithRetry_allFail service target n b outcomes hn hfail]
  · intro code hcode
    simp [hcode, attemptFailErr, attemptErrOf, errContains]

/-- Witness for `dial_retry_exhaustion`: two attempts, both failing with
transport error 7. -/
theorem dial_retry_exhaustion_witness :
    (dialWithRetry "trip-service" "localhost:50003" 2 second
        (fun _ => AttemptOutcome.dialErr 7)).attemptsMade = 2 ∧
    (dialWithRetry "trip-service" "localhost:50003" 2 second
        (fun _ => AttemptOutcome.dialErr 7)).result
      = .error (.dialFailure "trip-service" 2
          (attemptFailErr "trip-service" "localhost:50003" 2 1
            (AttemptOutcome.dialErr 7))) ∧
    errContains
      (.dialFailure "trip-service" 2
        (attemptFailErr "trip-service" "localhost:50003" 2 1 (AttemptOutcome.dialErr 7)))
      (.transport 7) = true :=
  have h := dial_retry_exhaustion "trip-service" "localhost:50003" 2 second
    (fun _ => AttemptOutcome.dialErr 7) (by decide) (fun k _ => by simp)
  ⟨h.2.1, h.2.2.1, h.2.2.2 7 rfl⟩

/-- The state of `sampleClient` after one successful Close(): maps empty,
context cancelled, stopMonitor channel closed. -/
def sampleClientClosed : GRPCClient :=
  { sampleClient with cancelled := true, stopMonitorClosed := true, conns := [], connInfo := [] }

/-- Claim C3: calling Close() twice panics.  The first Close() on a live pool
succeeds, empties both maps and marks the stopMonitor channel closed; the
second call reaches `close(c.stopMonitor)` on an already-closed channel, which
panics in Go (modelled as `none`).  The specification requires double-Close not
to panic, so the code contradicts the claim. -/
theorem double_close_panics :
    closeClient sampleClient = some ⟨sampleClientClosed, none, [1]⟩ ∧
    Option.bind (closeClient sampleClient) (fun r => closeClient r.client) = none :=
  ⟨rfl, rfl⟩

/-- Claim C4, counterexample: the monitor evicts a TransientFailure entry only
when strictly more than two intervals have passed since lastUsedAt.  At a tick
exactly 60 s after lastUsedAt (tick 2 of the claim, interval 30 s) the
condition `time.Since(lastUsed) > 2*healthCheckInterval` is false, so the entry
is not evicted and no redial is started, contradicting the claim's
"is evicted by tick 2 (60 s)". -/
theorem transient_failure_tick2_not_evicted :
    checkEntry tfClient (60 * second) "trip-service" = ⟨tfClient, [], []⟩ ∧
    alookup (checkEntry tfClient (60 * second) "trip-service").client.conns "trip-service"
      = some tfConn ∧
    (checkEntry tfClient (60 * second) "trip-service").redials = [] :=
  ⟨rfl, rfl, rfl⟩

/-- Claim C4, amended: a Shutdown entry is evicted and closed immediately; a
TransientFailure entry with metadata present is evicted, closed and handed to a
background redial exactly when strictly more than two monitor intervals have
passed since lastUsedAt — so with a 30 s interval it is not evicted at tick 1
(30 s), is still not evicted at a tick exactly 60 s after lastUsedAt, and is
evicted at the next tick (90 s) if still failing. -/
theorem monitor_eviction_policy (c : GRPCClient) (now : Nat) (name : String)
    (conn : Conn) (hc : alookup c.conns name = some conn) :
    (conn.state = ConnState.shutdown →
       checkEntry c now name = ⟨evict c name, [conn.id], []⟩) ∧
    (∀ info, conn.state = ConnState.transientFailure →
       alookup c.connInfo name = some info →
         ((now - info.lastUsed > 2 * healthCheckInterval →
             checkEntry c now name = ⟨evict c name, [conn.id], [name]⟩) ∧
          (now - info.lastUsed ≤ 2 * healthCheckInterval →
             checkEntry c now name = ⟨c, [], []⟩))) ∧
    alookup (evict c name).conns name = none ∧
    alookup (evict c name).connInfo name = none := by
  refine ⟨?_, ?_, ?_, ?_⟩
  · intro hs
    simp [checkEntry, hc, hs]
  · intro info hs hi
    constructor
    · intro ht
      simp [checkEntry, hc, hs, hi, if_pos ht]
    · intro ht
      simp [checkEntry, hc, hs, hi, if_neg (by omega : ¬ now - info.lastUsed > 2 * healthCheckInterval)]
  · simp [evict, alookup_aerase]
  · simp [evict, alookup_aerase]

/-- Witness for `monitor_eviction_policy`: the TransientFailure pool `tfClient`
is left alone at ticks 30 s and 60 s after lastUsedAt and evicted with a redial
at 90 s. -/
theorem monitor_eviction_policy_witness :
    checkEntry tfClient (30 * second) "trip-service" = ⟨tfClient, [], []⟩ ∧
    checkEntry tfClient (90 * second) "trip-service"
      = ⟨evict tfClient "trip-service", [5], ["trip-service"]⟩ :=
  have h30 := monitor_eviction_policy tfClient (30 * second) "trip-service" tfConn rfl
  have h90 := monitor_eviction_policy tfClient (90 * second) "trip-service" tfConn rfl
  ⟨(h30.2.1 tfInfo rfl rfl).2 (by norm_num [second, healthCheckInterval, tfInfo]),
   (h90.2.1 tfInfo rfl rfl).1 (by norm_num [second, healthCheckInterval, tfInfo])⟩

/-- Claim C5: for a service name that is not cached and absent from the Service
Directory, GetServiceConnectionWithContext returns the config-not-found error,
performs no dial, closes nothing, and leaves the pool state unchanged. -/
theorem config_not_found_no_dial (c : GRPCClient) (now : Nat) (name : String)
    (denv : DialEnv) (hmiss : alookup c.conns name = none)
    (hcfg : GetServiceConfig name = none) :
    getServiceConnectionWithContext c now name denv
      = ⟨c, .error (.configNotFound name), false, []⟩ := by
  simp [getServiceConnectionWithContext, hmiss, getConnDial, hcfg]

/-- Witness for `config_not_found_no_dial`: an unknown service name against the
empty pool. -/
theorem config_not_found_no_dial_witness :
    getServiceConnectionWithContext emptyClient 0 "payments-service" (DialEnv.dialErr 0)
      = ⟨emptyClient, .error (.configNotFound "payments-service"), false, []⟩ :=
  config_not_found_no_dial emptyClient 0 "payments-service" (DialEnv.dialErr 0) rfl rfl

/-- Claim C6: on a cache hit in state Ready, Idle or Connecting the cached
handle is returned with no dial and no close, the conns map is untouched, and
the entry's metadata is refreshed (lastUsed set to now, state re-read), leaving
every other metadata entry alone; on a cache hit in TransientFailure or
Shutdown the call is exactly eviction of the entry from both maps followed by
the fresh-dial path, the stale channel is closed, and (when the name is in the
directory) a dial is attempted. -/
theorem cache_hit_policy (c : GRPCClient) (now : Nat) (name : String)
    (denv : DialEnv) (conn : Conn) (hc : alookup c.conns name = some conn) :
    ((conn.state = ConnState.ready ∨ conn.state = ConnState.idle ∨
        conn.state = ConnState.connecting) →
       (getServiceConnectionWithContext c now name denv).result = .ok conn ∧
       (getServiceConnectionWithContext c now name denv).dialAttempted = false ∧
       (getServiceConnectionWithContext c now name denv).closed = [] ∧
       (getServiceConnectionWithContext c now name denv).client.conns = c.conns ∧
       alookup (getServiceConnectionWithContext c now name denv).client.connInfo name
         = (alookup c.connInfo name).map
             (fun info => { info with lastUsed := now, state := conn.state }) ∧
       (∀ j, ¬ j = name →
          alookup (getServiceConnectionWithContext c now name denv).client.connInfo j
            = alookup c.connInfo j)) ∧
    ((conn.state = ConnState.transientFailure ∨ conn.state = ConnState.shutdown) →
       (getServiceConnectionWithContext c now name denv
         = ⟨(getConnDial (evict c name) now name denv).client,
            (getConnDial (evict c name) now name denv).result,
            (getConnDial (evict c name) now name denv).dialAttempted,
            conn.id :: (getConnDial (evict c name) now name denv).closed⟩) ∧
       alookup (evict c name).conns name = none ∧
       alookup (evict c name).connInfo name = none ∧
       conn.id ∈ (getServiceConnectionWithContext c now name denv).closed ∧
       (∀ config, GetServiceConfig name = some config →
          (getServiceConnectionWithContext c now name denv).dialAttempted = true)) := by
  constructor
  · intro hstate
    have hred : getServiceConnectionWithContext c now name denv
        = ⟨{ c with connInfo := (aupdate c.connInfo name (fun info =>
              { info with lastUsed := now, state := conn.state })) },
           .ok conn, false, []⟩ := by
      simp only [getServiceConnectionWithContext, hc, if_pos hstate]
    rw [hred]
    refine ⟨rfl, rfl, rfl, rfl, ?_, ?_⟩
    · simp [alookup_aupdate]
    · intro j hj
      simp [alookup_aupdate, hj]
  · intro hstate
    have hneg : ¬ (conn.state = ConnState.ready ∨ conn.state = ConnState.idle ∨
        conn.state = ConnState.connecting) := by
      rcases hstate with h | h <;> rw [h] <;> simp
    have hred : getServiceConnectionWithContext c now name denv
        = ⟨(getConnDial (evict c name) now name denv).client,
           (getConnDial (evict c name) now name denv).result,
           (getConnDial (evict c name) now name denv).dialAttempted,
           conn.id :: (getConnDial (evict c name) now name denv).closed⟩ := by
      simp only [getServiceConnectionWithContext, hc, if_neg hneg]
    refine ⟨hred, ?_, ?_, ?_, ?_⟩
    · simp [evict, alookup_aerase]
    · simp [evict, alookup_aerase]
    · rw [hred]
      exact List.mem_cons_self _ _
    · intro config hcfg
      rw [hred]
      exact getConnDial_dialAttempted (evict c name) now name denv config hcfg

/-- Witness for `cache_hit_policy`: both branches at concrete pools — a healthy
hit on `sampleClient` and a TransientFailure hit on `tfClient` (whose name is
in the directory, so a dial is attempted). -/
theorem cache_hit_policy_witness :
    ((getServiceConnectionWithContext sampleClient 7 "trip-service"
        (DialEnv.dialErr 0)).result = .ok sampleConn ∧
     (getServiceConnectionWithContext sampleClient 7 "trip-service"
        (DialEnv.dialErr 0)).dialAttempted = false) ∧
    ((getServiceConnectionWithContext tfClient 7 "trip-service"
        (DialEnv.dialErr 0)).dialAttempted = true ∧
     tfConn.id ∈ (getServiceConnectionWithContext tfClient 7 "trip-service"
        (DialEnv.dialErr 0)).closed) :=
  have h1 := cache_hit_policy sampleClient 7 "trip-service" (DialEnv.dialErr 0)
    sampleConn rfl
  have h2 := cache_hit_policy tfClient 7 "trip-service" (DialEnv.dialErr 0) tfConn rfl
  have h1h := h1.1 (Or.inl rfl)
  have h2h := h2.2 (Or.inl rfl)
  ⟨⟨h1h.1, h1h.2.1⟩, ⟨h2h.2.2.2.2 ⟨"trip-service", "50003"⟩ rfl, h2h.2.2.2.1⟩⟩

/-- Claim C7: on a pool whose stop channel is not yet closed, Close() succeeds,
marks the monitor stopped, attempts a close on every pooled channel in
iteration order regardless of earlier failures, clears both maps, and returns
the first per-channel close error (none if every close succeeded). -/
theorem close_teardown_first_error (c : GRPCClient) (h : c.stopMonitorClosed = false) :
    ∃ r, closeClient c = some r ∧
      r.client.conns = [] ∧
      r.client.connInfo = [] ∧
      r.client.stopMonitorClosed = true ∧
      r.closedAttempts = c.conns.map (fun p => p.2.id) ∧
      r.closeError = (c.conns.filterMap (fun p => p.2.closeErr)).head? := by
  refine ⟨⟨{ c with cancelled := true, stopMonitorClosed := true, conns := [], connInfo := [] },
           (closeLoop none c.conns).1, (closeLoop none c.conns).2⟩, ?_, rfl, rfl, rfl, ?_, ?_⟩
  · simp [closeClient, h]
  · exact closeLoop_ids none c.conns
  · exact closeLoop_none_firstErr c.conns

/-- Witness for `close_teardown_first_error`: a pool with three channels, the
second and third of which fail to close; the first error (transport 13) is
returned and all three closes are attempted. -/
theorem close_teardown_first_error_witness :
    closeErrClient.stopMonitorClosed = false ∧
    ∃ r, closeClient closeErrClient = some r ∧
      r.client.conns = [] ∧
      r.client.connInfo = [] ∧
      r.client.stopMonitorClosed = true ∧
      r.closedAttempts = closeErrClient.conns.map (fun p => p.2.id) ∧
      r.closeError = (closeErrClient.conns.filterMap (fun p => p.2.closeErr)).head? :=
  ⟨rfl, close_teardown_first_error closeErrClient rfl⟩

/-- Claim C8: when the monitor inspects an entry in state Ready or Idle, the
conns map is untouched, nothing is closed or redialed, the entry stays in the
pool, and the only change to the metadata map is that this entry's state field
is refreshed — its serviceName, target, createdAt, lastUsed and connId fields,
and every other entry, are left unchanged. -/
theorem monitor_healthy_frame (c : GRPCClient) (now : Nat) (name : String)
    (conn : Conn) (hc : alookup c.conns name = some conn)
    (hstate : conn.state = ConnState.ready ∨ conn.state = ConnState.idle) :
    (checkEntry c now name).client.conns = c.conns ∧
    (checkEntry c now name).closed = [] ∧
    (checkEntry c now name).redials = [] ∧
    alookup (checkEntry c now name).client.conns name = some conn ∧
    alookup (checkEntry c now name).client.connInfo name
      = (alookup c.connInfo name).map (fun info => { info with state := conn.state }) ∧
    (∀ j, ¬ j = name →
       alookup (checkEntry c now name).client.connInfo j = alookup c.connInfo j) ∧
    (∀ info, alookup c.connInfo name = some info →
       ∃ info2, alookup (checkEntry c now name).client.connInfo name = some info2 ∧
         info2.serviceName = info.serviceName ∧ info2.target = info.target ∧
         info2.createdAt = info.createdAt ∧ info2.lastUsed = info.lastUsed ∧
         info2.connId = info.connId) := by
  have hred : checkEntry c now name
      = ⟨{ c with connInfo := (aupdate c.connInfo name (fun info =>
            { info with state := conn.state })) }, [], []⟩ := by
    rcases hstate with h | h <;> simp [checkEntry, hc, h]
  rw [hred]
  refine ⟨rfl, rfl, rfl, hc, ?_, ?_, ?_⟩
  · simp [alookup_aupdate]
  · intro j hj
    simp [alookup_aupdate, hj]
  · intro info hi
    refine ⟨{ info with state := conn.state }, ?_, rfl, rfl, rfl, rfl, rfl⟩
    simp [alookup_aupdate, hi]

/-- Witness for `monitor_healthy_frame`: the healthy pool `sampleClient` at an
arbitrary tick. -/
theorem monitor_healthy_frame_witness :
    (checkEntry sampleClient 1000 "trip-service").client.conns = sampleClient.conns ∧
    (checkEntry sampleClient 1000 "trip-service").closed = [] ∧
    (checkEntry sampleClient 1000 "trip-service").redials = [] ∧
    alookup (checkEntry sampleClient 1000 "trip-service").client.conns "trip-service"
      = some sampleConn :=
  have h := monitor_healthy_frame sampleClient 1000 "trip-service" sampleConn rfl
    (Or.inl rfl)
  ⟨h.1, h.2.1, h.2.2.1, h.2.2.2.1⟩

/-- Claim C9: every configuration value has a default, a zero (unset) field of
the options object is replaced by that default at construction, a nil options
pointer behaves as the all-zero options object, and the constants carry the
documented values (30 s dial timeout, 3 retries, 1 s backoff, 60 s / 20 s
keepalive, 30 s ready timeout, 4 MiB message size, 30 s health-check
interval). -/
theorem options_defaults (opts : Options) :
    (opts.dialTimeout = 0 →
       (newGRPCClientWithOptions (some opts)).dialTimeout = defaultDialTimeout) ∧
    (opts.maxRetries = 0 →
       (newGRPCClientWithOptions (some opts)).maxRetries = defaultMaxRetries) ∧
    (opts.retryBackoff = 0 →
       (newGRPCClientWithOptions (some opts)).retryBackoff = defaultRetryBackoff) ∧
    (opts.keepaliveTime = 0 →
       (newGRPCClientWithOptions (some opts)).keepaliveTime = defaultKeepaliveTime) ∧
    (opts.keepaliveTimeout = 0 →
       (newGRPCClientWithOptions (some opts)).keepaliveTimeout = defaultKeepaliveTimeout) ∧
    (opts.readyTimeout = 0 →
       (newGRPCClientWithOptions (some opts)).readyTimeout = defaultReadyTimeout) ∧
    (opts.maxMsgSize = 0 →
       (newGRPCClientWithOptions (some opts)).maxMsgSize = defaultMaxMsgSize) ∧
    defaultDialTimeout = 30 * second ∧
    defaultMaxRetries = 3 ∧
    defaultRetryBackoff = 1 * second ∧
    defaultKeepaliveTime = 60 * second ∧
    defaultKeepaliveTimeout = 20 * second ∧
    defaultReadyTimeout = 30 * second ∧
    defaultMaxMsgSize = 4 * 1024 * 1024 ∧
    healthCheckInterval = 30 * second ∧
    newGRPCClientWithOptions none = newGRPCClientWithOptions (some zeroOptions) := by
  refine ⟨?_, ?_, ?_, ?_, ?_, ?_, ?_, rfl, rfl, rfl, rfl, rfl, rfl, rfl, rfl, rfl⟩ <;>
    (intro h; simp [newGRPCClientWithOptions, h])

/-- Witness for `options_defaults` at the all-zero options object. -/
theorem options_defaults_witness :
    (newGRPCClientWithOptions (some zeroOptions)).dialTimeout = defaultDialTimeout ∧
    (newGRPCClientWithOptions (some zeroOptions)).maxRetries = defaultMaxRetries ∧
    (newGRPCClientWithOptions (some zeroOptions)).retryBackoff = defaultRetryBackoff ∧
    (newGRPCClientWithOptions (some zeroOptions)).keepaliveTime = defaultKeepaliveTime ∧
    (newGRPCClientWithOptions (some zeroOptions)).keepaliveTimeout
      = defaultKeepaliveTimeout ∧
    (newGRPCClientWithOptions (some zeroOptions)).readyTimeout = defaultReadyTimeout ∧
    (newGRPCClientWithOptions (some zeroOptions)).maxMsgSize = defaultMaxMsgSize :=
  have h := options_defaults zeroOptions
  ⟨h.1 rfl, h.2.1 rfl, h.2.2.1 rfl, h.2.2.2.1 rfl, h.2.2.2.2.1 rfl,
   h.2.2.2.2.2.1 rfl, h.2.2.2.2.2.2.1 rfl⟩

/-- Claim C10: every operation of the pool preserves the lockstep of the two
maps — starting from a pool in which a channel is cached for a name exactly
when metadata is cached for it, the same holds after any
GetServiceConnectionWithContext call (cache hit, eviction plus redial, or
fresh insert), after any full health-monitor pass, and after a Close() that
did not panic. -/
theorem conns_connInfo_lockstep (c : GRPCClient) (h : PoolInv c) :
    (∀ now name denv,
       PoolInv (getServiceConnectionWithContext c now name denv).client) ∧
    (∀ now, PoolInv (checkAndReconnectConnections c now).client) ∧
    (∀ r, closeClient c = some r → PoolInv r.client) :=
  ⟨fun now name denv => poolInv_getConn now name denv h,
   fun now => poolInv_monitorPass now h,
   fun _ hr => poolInv_close hr⟩

/-- Witness for `conns_connInfo_lockstep`: the invariant holds of the one-entry
pool `sampleClient` and is preserved by a successful dial that inserts a second
entry. -/
theorem conns_connInfo_lockstep_witness :
    PoolInv sampleClient ∧
    PoolInv (getServiceConnectionWithContext sampleClient 5 "driver-service"
      (DialEnv.conn ⟨9, ConnState.ready, none⟩ true)).client :=
  have hinv : PoolInv sampleClient := by
    intro j
    by_cases hj : "trip-service" = j <;> simp [sampleClient, alookup, hj]
  ⟨hinv, (conns_connInfo_lockstep sampleClient hinv).1 5 "driver-service"
    (DialEnv.conn ⟨9, ConnState.ready, none⟩ true)⟩
